import Mathlib

/-!
Verification of the edge-service issuer operation layer
(`pkg/restapi/issuer/operation/operations.go`) against its specification.

The development shallowly embeds the Go code: pure helpers become Lean
functions, the external collaborators (EDV client, JWE encrypter/decrypter,
keyed MAC) become function parameters, and Go's `encoding/json` generic
decoding (`map[string]interface{}`) is modelled by a JSON value type with a
parser, a canonical serializer (Go marshals maps with sorted keys, duplicate
keys collapse with last-write-wins at decode time) and a normalization
function.  The JSON model covers the fragment relevant to the claims:
objects, arrays, strings without escape sequences, integer numbers,
booleans and null.
-/

namespace EdgeService

/-! ## JSON value model (Go `interface{}` after `encoding/json` decoding) -/

mutual

/-- A decoded JSON value as produced by Go's `encoding/json` when
unmarshalling into `interface{}` (restricted to integer numbers and
escape-free strings). -/
inductive Jval where
  | null : Jval
  | bool (b : Bool) : Jval
  | num (n : Int) : Jval
  | str (s : String) : Jval
  | arr (xs : JList) : Jval
  | obj (fs : JFields) : Jval

/-- A list of JSON values (elements of a JSON array). -/
inductive JList where
  | nil : JList
  | cons (v : Jval) (tl : JList) : JList

/-- The fields of a JSON object, in document order. -/
inductive JFields where
  | nil : JFields
  | cons (k : String) (v : Jval) (tl : JFields) : JFields

end

/-- Whether a character is JSON whitespace. -/
def isJsonWs (c : Char) : Bool :=
  c == ' ' || c == '\n' || c == '\t' || c == '\r'

/-- Drop leading JSON whitespace. -/
def skipWs : List Char → List Char
  | [] => []
  | c :: cs => if isJsonWs c then skipWs cs else c :: cs

/-- Match a literal character sequence, returning the remainder. -/
def matchLit : List Char → List Char → Option (List Char)
  | [], cs => some cs
  | _ :: _, [] => none
  | l :: ls, c :: cs => if c == l then matchLit ls cs else none

/-- Parse the body of a string literal (after the opening quote): the
characters up to the closing quote.  Escape sequences are outside the
modelled fragment and make the parse fail. -/
def parseStrBody (acc : List Char) : List Char → Option (String × List Char)
  | [] => none
  | c :: cs =>
    if c == '"' then some (String.mk acc.reverse, cs)
    else if c == '\\' then none
    else parseStrBody (c :: acc) cs

/-- Parse a non-empty run of decimal digits into a natural number. -/
def parseDigits (acc : Nat) (seen : Bool) : List Char → Option (Nat × List Char)
  | [] => if seen then some (acc, []) else none
  | c :: cs =>
    if c.isDigit then parseDigits (acc * 10 + (c.toNat - '0'.toNat)) true cs
    else if seen then some (acc, c :: cs) else none

mutual

/-- Parse a single JSON value (fuel-bounded recursive descent). -/
def parseVal (fuel : Nat) (cs : List Char) : Option (Jval × List Char) :=
  match fuel with
  | 0 => none
  | fuel + 1 =>
    match skipWs cs with
    | [] => none
    | c :: rest =>
      if c == 'n' then
        (matchLit ['u', 'l', 'l'] rest).map (fun r => (Jval.null, r))
      else if c == 't' then
        (matchLit ['r', 'u', 'e'] rest).map (fun r => (Jval.bool true, r))
      else if c == 'f' then
        (matchLit ['a', 'l', 's', 'e'] rest).map (fun r => (Jval.bool false, r))
      else if c == '"' then
        (parseStrBody [] rest).map (fun p => (Jval.str p.1, p.2))
      else if c == '[' then
        match skipWs rest with
        | ']' :: r2 => some (Jval.arr JList.nil, r2)
        | r2 =>
          match parseElems fuel r2 with
          | some (xs, r3) => some (Jval.arr xs, r3)
          | none => none
      else if c == '{' then
        match skipWs rest with
        | '}' :: r2 => some (Jval.obj JFields.nil, r2)
        | r2 =>
          match parseFields fuel r2 with
          | some (fs, r3) => some (Jval.obj fs, r3)
          | none => none
      else if c == '-' then
        (parseDigits 0 false rest).map (fun p => (Jval.num (-(p.1 : Int)), p.2))
      else if c.isDigit then
        (parseDigits 0 false (c :: rest)).map (fun p => (Jval.num (p.1 : Int), p.2))
      else none

/-- Parse the elements of a non-empty JSON array, up to and including the
closing bracket. -/
def parseElems (fuel : Nat) (cs : List Char) : Option (JList × List Char) :=
  match fuel with
  | 0 => none
  | fuel + 1 =>
    match parseVal fuel cs with
    | none => none
    | some (v, r) =>
      match skipWs r with
      | ']' :: r2 => some (JList.cons v JList.nil, r2)
      | ',' :: r2 =>
        match parseElems fuel r2 with
        | some (tl, r3) => some (JList.cons v tl, r3)
        | none => none
      | _ => none

/-- Parse the fields of a non-empty JSON object, up to and including the
closing brace. -/
def parseFields (fuel : Nat) (cs : List Char) : Option (JFields × List Char) :=
  match fuel with
  | 0 => none
  | fuel + 1 =>
    match skipWs cs with
    | '"' :: r =>
      match parseStrBody [] r with
      | none => none
      | some (k, r2) =>
        match skipWs r2 with
        | ':' :: r3 =>
          match parseVal fuel r3 with
          | none => none
          | some (v, r4) =>
            match skipWs r4 with
            | '}' :: r5 => some (JFields.cons k v JFields.nil, r5)
            | ',' :: r5 =>
              match parseFields fuel r5 with
              | some (tl, r6) => some (JFields.cons k v tl, r6)
              | none => none
            | _ => none
        | _ => none
    | _ => none

end

/-- Parse a whole string as one JSON value, requiring that nothing but
whitespace remains — the behaviour of Go's `json.Unmarshal`. -/
def parseJson (s : String) : Option Jval :=
  let cs := s.toList
  match parseVal (2 * cs.length + 2) cs with
  | some (v, rest) => if skipWs rest = [] then some v else none
  | none => none

/-! ## Canonical serialization (Go `json.Marshal` of decoded values) -/

/-- Whether an object field list contains the given key. -/
def JFields.hasKey (k : String) : JFields → Bool
  | .nil => false
  | .cons k' _ tl => k' == k || tl.hasKey k

/-- Insert a field into a key-sorted field list (insertion sort step).  Go
marshals `map[string]interface{}` with keys in sorted order. -/
def JFields.insertSorted (k : String) (v : Jval) : JFields → JFields
  | .nil => .cons k v .nil
  | .cons k' v' tl =>
    if k < k' then .cons k v (.cons k' v' tl)
    else .cons k' v' (insertSorted k v tl)

mutual

/-- Normalize a decoded JSON value the way a round trip through Go's
`map[string]interface{}` does: object fields lose duplicates (the last
occurrence of a key wins, as in `encoding/json` decoding) and are reordered
into sorted key order (as `json.Marshal` emits maps). -/
def Jval.normalize : Jval → Jval
  | .null => .null
  | .bool b => .bool b
  | .num n => .num n
  | .str s => .str s
  | .arr xs => .arr xs.normalize
  | .obj fs => .obj (fs.normalize JFields.nil)

/-- Normalize every element of a JSON array. -/
def JList.normalize : JList → JList
  | .nil => .nil
  | .cons v tl => .cons v.normalize tl.normalize

/-- Normalize object fields: drop a field when the same key occurs again
later (last-write-wins) and insert the survivors in sorted key order. -/
def JFields.normalize : JFields → JFields → JFields
  | .nil, acc => acc
  | .cons k v tl, acc =>
    if tl.hasKey k then tl.normalize acc
    else tl.normalize (acc.insertSorted k v.normalize)

end

mutual

/-- Serialize a JSON value in the compact form `json.Marshal` produces. -/
def Jval.ser : Jval → String
  | .null => "null"
  | .bool true => "true"
  | .bool false => "false"
  | .num n => toString n
  | .str s => "\"" ++ s ++ "\""
  | .arr xs => "[" ++ xs.serElems ++ "]"
  | .obj fs => "\x7b" ++ fs.serElems ++ "\x7d"

/-- Serialize the elements of a JSON array, comma separated. -/
def JList.serElems : JList → String
  | .nil => ""
  | .cons v .nil => v.ser
  | .cons v (.cons w tl) => v.ser ++ "," ++ (JList.cons w tl).serElems

/-- Serialize the fields of a JSON object, comma separated. -/
def JFields.serElems : JFields → String
  | .nil => ""
  | .cons k v .nil => "\"" ++ k ++ "\":" ++ v.ser
  | .cons k v (.cons k' w tl) =>
    "\"" ++ k ++ "\":" ++ v.ser ++ "," ++ (JFields.cons k' w tl).serElems

end

/-- Go's `json.Marshal` applied to a value decoded into
`map[string]interface{}`: canonical ordering then compact serialization. -/
def goRemarshal (v : Jval) : String :=
  v.normalize.ser

end EdgeService

namespace EdgeService

/-! ## Base64 URL encoding (`base64.URLEncoding.EncodeToString`) -/

/-- The base64 URL-safe alphabet (RFC 4648 §5). -/
def b64urlAlphabet : List Char :=
  "ABCDEFGHIJKLMNOPQRSTUVWXYZabcdefghijklmnopqrstuvwxyz0123456789-_".toList

/-- The base64 URL-safe character for a 6-bit value. -/
def b64At (n : Nat) : Char := b64urlAlphabet.getD n 'A'

/-- Encode a byte sequence in base64 URL encoding with padding, as Go's
`base64.URLEncoding.EncodeToString` does. -/
def base64URLEncodeChars : List Nat → List Char
  | [] => []
  | [a] => [b64At (a / 4), b64At (a % 4 * 16), '=', '=']
  | [a, b] => [b64At (a / 4), b64At (a % 4 * 16 + b / 16), b64At (b % 16 * 4), '=']
  | a :: b :: c :: rest =>
    b64At (a / 4) :: b64At (a % 4 * 16 + b / 16) :: b64At (b % 16 * 4 + c / 64) ::
      b64At (c % 64) :: base64URLEncodeChars rest

/-- String form of the base64 URL encoding. -/
def base64URLEncode (bs : List Nat) : String := String.mk (base64URLEncodeChars bs)

/-! ## EDV document model and envelope construction

`models.StructuredDocument` holds an ID and a content map whose single
entry, `"message"`, is stored as `json.RawMessage` — it marshals verbatim
into the serialized document.  The model keeps that raw payload as a string
field.  JWE encryption and decryption are external collaborators and enter
as function parameters. -/

/-- A structured document: vault-compatible ID plus the content map, whose
single key `"message"` holds the raw credential payload verbatim
(`buildStructuredDoc`, operations.go lines 428–445). -/
structure StructuredDocument where
  id : String
  message : String
deriving DecidableEq, Repr

/-- An EDV query (`models.Query`): blind-index attribute name and value. -/
structure Query where
  name : String
  value : String
deriving DecidableEq, Repr

/-- An EDV encrypted document (`models.EncryptedDocument`) with its single
indexed attribute (`buildEncryptedDoc` attaches exactly one). -/
structure EncryptedDocument where
  id : String
  sequence : Nat
  jwe : String
  indexName : String
  indexValue : String
  unique : Bool
deriving DecidableEq, Repr

/-- Embedding of `buildStructuredDoc` (operations.go lines 428–445): a fresh
document ID (the random generation is external, so the ID is a parameter)
and a content map holding the raw credential bytes verbatim under
`"message"`. -/
def buildStructuredDoc (edvDocID : String) (credential : String) : StructuredDocument :=
  { id := edvDocID, message := credential }

/-- Embedding of `buildEncryptedDoc` (operations.go lines 447–493): encrypt
the marshalled structured document with the JWE encrypter `E`, compute the
MAC of the logical VC ID under the deployment key handle `kh`, base64-URL
encode it, and attach it as the single indexed attribute. -/
def buildEncryptedDoc (E : StructuredDocument → String)
    (computeMAC : Nat → String → List Nat) (kh : Nat) (vcIDIndexNameEncoded : String)
    (structuredDoc : StructuredDocument) (vcID : String) : EncryptedDocument :=
  { id := structuredDoc.id
    sequence := 0
    jwe := E structuredDoc
    indexName := vcIDIndexNameEncoded
    indexValue := base64URLEncode (computeMAC kh vcID)
    unique := true }

/-- Embedding of `queryVault` (operations.go lines 921–933): the query it
hands to `edvClient.QueryVault`, built from the MAC of the logical VC ID
under the deployment key handle and base64-URL encoding. -/
def queryVault (computeMAC : Nat → String → List Nat) (kh : Nat)
    (vcIDIndexNameEncoded : String) (vcID : String) : Query :=
  { name := vcIDIndexNameEncoded
    value := base64URLEncode (computeMAC kh vcID) }

/-! ## Credential retrieval and duplicate reconciliation -/

/-- An error surfaced by the retrieval operation: HTTP status code plus
message, as written by `commhttp.WriteErrorResponse`. -/
structure HErr where
  status : Nat
  msg : String
deriving DecidableEq, Repr

/-- Message of the zero-match branch of `retrieveCredential`
(operations.go lines 939–941). -/
def noVCFoundMsg (profileName : String) : String :=
  "no VC under profile \"" ++ profileName ++ "\" was found with the given id"

/-- Message of `errMultipleInconsistentVCsFoundForOneID`
(operations.go lines 79–81). -/
def errMultipleInconsistentVCsFoundForOneIDMsg : String :=
  "multiple VCs with differing contents were found matching the given ID. " ++
  "This indicates inconsistency in the VC database. To solve this, delete " ++
  "the extra VCs and leave only one"

/-- Split a character list at every occurrence of a separator
(Go's `strings.Split`; the result is never empty). -/
def splitOnChar (sep : Char) : List Char → List (List Char)
  | [] => [[]]
  | c :: tl =>
    let r := splitOnChar sep tl
    if c == sep then [] :: r
    else
      match r with
      | [] => [[c]]
      | g :: gs => (c :: g) :: gs

/-- Embedding of `getDocIDFromURL` (operations.go lines 1074–1079): the
last slash-separated segment of a document URL. -/
def getDocIDFromURL (docURL : String) : String :=
  String.mk ((splitOnChar '/' docURL.toList).getLastD [])

/-- Embedding of `retrieveVC` (operations.go lines 1004–1035).
`readDocument` models `edvClient.ReadDocument` (vault, docID → encrypted
document or error); `D` models `jose.Deserialize` plus
`jweDecrypter.Decrypt` plus the outer `json.Unmarshal` into
`models.StructuredDocument`, recovering the document with its raw
`"message"` bytes.  The generic decoding of the message value into
`interface{}` is `parseJson`, and the final `json.Marshal` of
`decryptedDoc.Content["message"]` is `goRemarshal`. -/
def retrieveVC (readDocument : String → String → Except String EncryptedDocument)
    (D : String → Option StructuredDocument)
    (profileName docID contextErrText : String) : Except String String :=
  match readDocument profileName docID with
  | .error e => .error ("failed to read document while " ++ contextErrText ++ ": " ++ e)
  | .ok document =>
    match D document.jwe with
    | none => .error ("decrypting document failed while " ++ contextErrText)
    | some decryptedDoc =>
      match parseJson decryptedDoc.message with
      | none =>
        .error ("decrypted structured document unmarshalling failed while " ++ contextErrText)
      | some v => .ok (goRemarshal v)

/-- Context text used by `verifyMultipleMatchingVCsAreIdentical` when
fetching each candidate document. -/
def multipleVCsContextErrText : String :=
  "determining if the multiple VCs matching the given ID are the same"

/-- The fetch loop of `verifyMultipleMatchingVCsAreIdentical`
(operations.go lines 983–993): retrieve and decrypt every matching
document, stopping at the first failure (surfaced with status 500). -/
def retrieveAllMatchingVCs (readDocument : String → String → Except String EncryptedDocument)
    (D : String → Option StructuredDocument) (profileName : String) :
    List String → Except HErr (List String)
  | [] => .ok []
  | docURL :: rest =>
    match retrieveVC readDocument D profileName (getDocIDFromURL docURL)
        multipleVCsContextErrText with
    | .error e => .error ⟨500, e⟩
    | .ok vcBytes =>
      match retrieveAllMatchingVCs readDocument D profileName rest with
      | .error e => .error e
      | .ok tl => .ok (vcBytes :: tl)

/-- Embedding of `verifyMultipleMatchingVCsAreIdentical` (operations.go
lines 980–1002): fetch and decrypt all matches, compare each payload
byte-for-byte against the first; on any difference return the
inconsistent-state error with status 409 (conflict), otherwise the first
payload. -/
def verifyMultipleMatchingVCsAreIdentical
    (readDocument : String → String → Except String EncryptedDocument)
    (D : String → Option StructuredDocument)
    (profileName : String) (docURLs : List String) : Except HErr String :=
  match retrieveAllMatchingVCs readDocument D profileName docURLs with
  | .error e => .error e
  | .ok retrievedVCs =>
    if retrievedVCs.all (fun b => b = retrievedVCs.headD "") then
      .ok (retrievedVCs.headD "")
    else
      .error ⟨409, errMultipleInconsistentVCsFoundForOneIDMsg⟩

/-- Embedding of `retrieveCredential` (operations.go lines 935–978): zero
matching locations is a distinguished not-found failure (status 400 with
the no-VC-found message); one match is fetched directly (failure status
500); several matches go through duplicate reconciliation. -/
def retrieveCredential (readDocument : String → String → Except String EncryptedDocument)
    (D : String → Option StructuredDocument)
    (profileName : String) (docURLs : List String) : Except HErr String :=
  match docURLs with
  | [] => .error ⟨400, noVCFoundMsg profileName⟩
  | [docURL] =>
    match retrieveVC readDocument D profileName (getDocIDFromURL docURL) "retrieving VC" with
    | .error e => .error ⟨500, e⟩
    | .ok vcBytes => .ok vcBytes
  | _ => verifyMultipleMatchingVCsAreIdentical readDocument D profileName docURLs

/-- Store-then-retrieve composition for one credential: build the
structured and encrypted documents as `storeVC` does, then run
`retrieveVC` against a vault that returns exactly that stored document. -/
def storeThenRetrieveVC (E : StructuredDocument → String)
    (D : String → Option StructuredDocument)
    (computeMAC : Nat → String → List Nat) (kh : Nat) (indexName : String)
    (edvDocID payload vcID profileName : String) : Except String String :=
  let storedDoc := buildEncryptedDoc E computeMAC kh indexName
    (buildStructuredDoc edvDocID payload) vcID
  retrieveVC (fun _ _ => .ok storedDoc) D profileName edvDocID "retrieving VC"

end EdgeService

namespace EdgeService

/-! ## Store flow: lazy vault creation retry (`storeVC`) -/

/-- The vault-not-found error message of the EDV collaborator
(`edverrors.ErrVaultNotFound`; the package is external, the exact text is
immaterial — `storeVC` only tests substring containment). -/
def errVaultNotFoundMsg : String := "specified vault does not exist"

/-- Whether `needle` occurs as a contiguous run inside `hay`
(Go's `strings.Contains`). -/
def containsSubstr (needle : List Char) : List Char → Bool
  | [] => needle.isEmpty
  | c :: tl => needle.isPrefixOf (c :: tl) || containsSubstr needle tl

/-- Embedding of the `strings.Contains(err.Error(), edverrors.ErrVaultNotFound.Error())`
test in `storeVC` (operations.go line 413). -/
def containsVaultNotFound (e : String) : Bool :=
  containsSubstr errVaultNotFoundMsg.toList e.toList

/-- One EDV call made by the store flow. -/
inductive StoreAction where
  | createDocument : StoreAction
  | createDataVault : StoreAction
deriving DecidableEq, Repr

/-- Outcomes the EDV collaborator would give to the (at most) three calls
the store flow can make: the first document write, the lazy vault
creation, and the re-attempted write. -/
structure EdvOutcomes where
  firstWrite : Except String String
  createVault : Except String String
  secondWrite : Except String String

/-- Embedding of the document-write portion of `storeVC` (operations.go
lines 411–425): write the encrypted document; only when that fails with an
error containing the vault-not-found message, create the vault and — only
if the creation succeeded — re-attempt the single write exactly once.  The
result records the EDV calls made, in order, and the error surfaced to the
caller (`none` on success). -/
def storeVC (edv : EdvOutcomes) : List StoreAction × Option String :=
  match edv.firstWrite with
  | .ok _ => ([.createDocument], none)
  | .error e =>
    if containsVaultNotFound e then
      match edv.createVault with
      | .error ce => ([.createDocument, .createDataVault], some ce)
      | .ok _ =>
        match edv.secondWrite with
        | .ok _ => ([.createDocument, .createDataVault, .createDocument], none)
        | .error e2 => ([.createDocument, .createDataVault, .createDocument], some e2)
    else ([.createDocument], some e)

/-- Count of document-write attempts in a store trace. -/
def countWrites (acts : List StoreAction) : Nat :=
  (acts.filter (fun a => a = StoreAction.createDocument)).length

/-! ## Profiles, credentials and the issuance steps -/

/-- A status slot reference (`verifiable.TypedID`): ID and type. -/
structure TypedID where
  id : String
  type : String
deriving DecidableEq, Repr

/-- A credential issuer (`verifiable.Issuer`): ID plus custom fields
decoded from JSON. -/
structure Issuer where
  id : String
  customFields : List (String × Jval)

/-- The issuer profile fields used by the issuance flow
(`vcprofile.DataProfile`). -/
structure DataProfile where
  name : String
  did : String
  signatureType : String
  disableVCStatus : Bool
  overwriteIssuer : Bool

/-- The credential fields the issuance steps read or write
(`verifiable.Credential`). -/
structure Credential where
  context : List String
  types : List String
  issuer : Issuer
  status : Option TypedID
  subject : Jval
  termsOfUse : List TypedID

/-- The JSON-LD context added for the JsonWebSignature2020 signature type
(operations.go line 74). -/
def jsonWebSignature2020Context : String :=
  "https://trustbloc.github.io/context/vc/credentials-v1.jsonld"

/-- The `crypto.JSONWebSignature2020` signature-type name (defined in the
crypto package, outside this file's source; only its equality with the
profile's signature type matters here). -/
def jsonWebSignature2020 : String := "JsonWebSignature2020"

/-- Embedding of `updateIssuer` (operations.go lines 1040–1045): replace
the credential issuer with the profile's DID — carrying the profile name as
the `"name"` custom field — when the profile's overwrite flag is set or the
credential supplied no issuer ID. -/
def updateIssuer (credential : Credential) (profile : DataProfile) : Credential :=
  if profile.overwriteIssuer || credential.issuer.id == "" then
    { credential with
      issuer := { id := profile.did, customFields := [("name", Jval.str profile.name)] } }
  else credential

/-- Embedding of `updateContext` (operations.go lines 1047–1051): append
the JsonWebSignature2020 context when the profile's signature type
requires it. -/
def updateContext (credential : Credential) (profile : DataProfile) : Credential :=
  if profile.signatureType == jsonWebSignature2020 then
    { credential with context := credential.context ++ [jsonWebSignature2020Context] }
  else credential

/-- Embedding of the status branch of `issueCredentialHandler`
(operations.go lines 630–641): when the profile has status enabled, obtain
a status ID from the status manager (`createStatusID` is the collaborator's
outcome; `statusContext` stands for `cslstatus.Context`, defined outside
this file's source) and attach it, extending the context; when status is
disabled the credential passes through untouched and the status manager is
never consulted. -/
def setCredentialStatus (statusContext : String) (profile : DataProfile)
    (createStatusID : Except String TypedID) (credential : Credential) :
    Except String Credential :=
  if profile.disableVCStatus then .ok credential
  else
    match createStatusID with
    | .error e => .error ("failed to add credential status: " ++ e)
    | .ok statusID =>
      .ok { credential with
            status := some statusID
            context := credential.context ++ [statusContext] }

/-- The credential-preparation pipeline of `issueCredentialHandler`
(operations.go lines 630–647): status branch, then context update, then
issuer update, before signing is delegated. -/
def prepareCredential (statusContext : String) (profile : DataProfile)
    (createStatusID : Except String TypedID) (credential : Credential) :
    Except String Credential :=
  match setCredentialStatus statusContext profile createStatusID credential with
  | .error e => .error e
  | .ok c => .ok (updateIssuer (updateContext c profile) profile)

/-- The identical credential-preparation pipeline of
`composeAndIssueCredentialHandler` (operations.go lines 699–716): the
status branch, context update and issuer update blocks are duplicated
verbatim in the two handlers. -/
def prepareComposedCredential (statusContext : String) (profile : DataProfile)
    (createStatusID : Except String TypedID) (credential : Credential) :
    Except String Credential :=
  match setCredentialStatus statusContext profile createStatusID credential with
  | .error e => .error e
  | .ok c => .ok (updateIssuer (updateContext c profile) profile)

/-! ## Compose options: two-shape TypedID decoding (`decodeTypedID`) -/

/-- Last-occurrence lookup of a key in decoded object fields (duplicate
keys in a JSON object resolve to the last occurrence in `encoding/json`). -/
def JFields.lookupLast (k : String) : JFields → Option Jval
  | .nil => none
  | .cons k' v tl =>
    match tl.lookupLast k with
    | some w => some w
    | none => if k' == k then some v else none

/-- Go `json.Unmarshal` of a decoded JSON value into one
`verifiable.TypedID`: an object binds its `"id"` and `"type"` fields
(absent fields keep the zero value, a non-string value is a type-mismatch
error), `null` leaves the zero value, and any other shape fails. -/
def unmarshalTypedID : Jval → Option TypedID
  | .null => some ⟨"", ""⟩
  | .obj fs =>
    match fs.lookupLast "id", fs.hasKey "id" with
    | some (.str i), _ =>
      match fs.lookupLast "type", fs.hasKey "type" with
      | some (.str t), _ => some ⟨i, t⟩
      | none, false => some ⟨i, ""⟩
      | _, _ => none
    | none, false =>
      match fs.lookupLast "type", fs.hasKey "type" with
      | some (.str t), _ => some ⟨"", t⟩
      | none, false => some ⟨"", ""⟩
      | _, _ => none
    | _, _ => none
  | _ => none

/-- Go `json.Unmarshal` of a decoded JSON value into a slice
`[]verifiable.TypedID`: an array binds element-wise, `null` gives the nil
slice, and any other shape fails. -/
def unmarshalTypedIDList : Jval → Option (List TypedID)
  | .null => some []
  | .arr xs => unmarshalTypedIDElems xs
  | _ => none
where
  /-- Element-wise decoding of a JSON array into TypedIDs. -/
  unmarshalTypedIDElems : JList → Option (List TypedID)
    | .nil => some []
    | .cons v tl =>
      match unmarshalTypedID v with
      | none => none
      | some t =>
        match unmarshalTypedIDElems tl with
        | none => none
        | some ts => some (t :: ts)

/-- Embedding of `decodeTypedID` (operations.go lines 797–817): empty
bytes (the field was not supplied) yield no TypedIDs and no error;
otherwise try the single-object shape first and wrap it in a one-element
list, fall back to the array shape, and fail only if both shapes fail. -/
def decodeTypedID (typedIDBytes : String) : Except String (List TypedID) :=
  if typedIDBytes.length = 0 then .ok []
  else
    match parseJson typedIDBytes with
    | none => .error "unmarshal failure"
    | some v =>
      match unmarshalTypedID v with
      | some singleTypedID => .ok [singleTypedID]
      | none =>
        match unmarshalTypedIDList v with
        | some composedTypedID => .ok composedTypedID
        | none => .error "cannot unmarshal into TypedID"

/-! ## Status list allocator (spec-modelled) -/

/-- The status-list shard capacity (operations.go line 64). -/
def cslSize : Nat := 50

/-- Modelled from the spec: the StatusListAllocator state (§4.4) — the
`cslstatus` package wired in by `New` (operations.go lines 116–122) is not
part of the provided sources.  The state is the current shard (identified
by its sequence number, standing for the sequentially suffixed public URL)
and its fill count. -/
structure AllocatorState where
  currentShard : Nat
  fill : Nat
deriving DecidableEq, Repr

/-- Modelled from the spec: `Allocate()` (§4.4) — if the current shard has
free capacity, claim the next index; otherwise create a new shard (fresh
sequential identifier, empty slot sequence) and claim index 0 of it.  The
returned pair is (shard identifier, slot index). -/
def allocateSlot (capacity : Nat) (s : AllocatorState) : (Nat × Nat) × AllocatorState :=
  if s.fill < capacity then
    ((s.currentShard, s.fill), ⟨s.currentShard, s.fill + 1⟩)
  else
    ((s.currentShard + 1, 0), ⟨s.currentShard + 1, 1⟩)

/-- Modelled from the spec: the slots handed out by `n` consecutive
allocations starting from the given allocator state. -/
def allocateSlots (capacity : Nat) : Nat → AllocatorState → List (Nat × Nat)
  | 0, _ => []
  | n + 1, s =>
    let r := allocateSlot capacity s
    r.1 :: allocateSlots capacity n r.2

/-! ## Profile lookup in the status-update handler -/

/-- Embedding of the unchecked Go type assertion
`vc.Issuer.CustomFields["name"].(string)` evaluated by
`updateCredentialStatusHandler` (operations.go line 262): `none` models the
run-time panic — the map lookup yields an untyped nil for an absent key,
and the assertion panics on nil or on any non-string value. -/
def issuerNameAssertion (credential : Credential) : Option String :=
  match credential.issuer.customFields.lookup "name" with
  | some (Jval.str s) => some s
  | _ => none

end EdgeService

namespace EdgeService

/-! ## Concrete fixtures used to evaluate the operations -/

/-- A profile with `overwriteIssuer` set. -/
def sampleProfile : DataProfile :=
  ⟨"profileA", "did:trustbloc:abc", "Ed25519Signature2018", false, true⟩

/-- A profile with `overwriteIssuer` unset. -/
def profileNoOverwrite : DataProfile :=
  ⟨"profileA", "did:trustbloc:abc", "Ed25519Signature2018", false, false⟩

/-- A profile with credential status disabled. -/
def profileNoStatus : DataProfile :=
  ⟨"profileB", "did:trustbloc:def", "JsonWebSignature2020", true, false⟩

/-- A credential carrying its own issuer. -/
def sampleCredential : Credential :=
  ⟨["https://www.w3.org/2018/credentials/v1"], ["VerifiableCredential"],
    ⟨"did:other:xyz", []⟩, none, Jval.null, []⟩

/-- A credential that supplied no issuer ID. -/
def blankIssuerCredential : Credential :=
  ⟨["https://www.w3.org/2018/credentials/v1"], ["VerifiableCredential"],
    ⟨"", []⟩, none, Jval.null, []⟩

/-- EDV outcomes where the first write hits a missing vault, the vault
creation succeeds and the re-attempted write fails. -/
def edvRetryOutcomes : EdvOutcomes :=
  ⟨.error errVaultNotFoundMsg, .ok "vaultLocation", .error "second write failed"⟩

/-- An EDV read that always fails. -/
def readDocumentFail : String → String → Except String EncryptedDocument :=
  fun _ _ => .error "boom"

/-- A decrypter that never succeeds. -/
def decryptNone : String → Option StructuredDocument := fun _ => none

/-- The error `retrieveCredential` surfaces when the single-match read
fails with message `"boom"`. -/
def readFailErr : HErr :=
  ⟨500, "failed to read document while retrieving VC: boom"⟩

/-- An EDV read returning one of two stored documents. -/
def readDocumentTwo : String → String → Except String EncryptedDocument :=
  fun _ docID =>
    if docID = "d1" then .ok ⟨"d1", 0, "jwe1", "idx", "val", true⟩
    else if docID = "d2" then .ok ⟨"d2", 0, "jwe2", "idx", "val", true⟩
    else .error "document not found"

/-- A decrypter under which both stored documents decrypt to the same
payload bytes. -/
def decryptTwoSame : String → Option StructuredDocument :=
  fun jwe =>
    if jwe = "jwe1" then some ⟨"d1", "\x7b\"k\":1\x7d"⟩
    else if jwe = "jwe2" then some ⟨"d2", "\x7b\"k\":1\x7d"⟩
    else none

/-- A decrypter under which the two stored documents decrypt to differing
payload bytes. -/
def decryptTwoDiff : String → Option StructuredDocument :=
  fun jwe =>
    if jwe = "jwe1" then some ⟨"d1", "\x7b\"k\":1\x7d"⟩
    else if jwe = "jwe2" then some ⟨"d2", "[]"⟩
    else none

/-- A JWE encrypter fixture (prefixes the document ID). -/
def jweEnc : StructuredDocument → String := fun d => d.id ++ ":" ++ d.message

/-- A decrypter fixture inverting `jweEnc` on the non-canonical payload
`"{\"a\": 1}"` stored under document ID `"doc1"`. -/
def jweDecNonCanonical : String → Option StructuredDocument :=
  fun s => if s = "doc1:\x7b\"a\": 1\x7d" then some ⟨"doc1", "\x7b\"a\": 1\x7d"⟩ else none

/-- A decrypter fixture inverting `jweEnc` on the canonical payload
`"{\"a\":1}"` stored under document ID `"doc1"`. -/
def jweDecCanonical : String → Option StructuredDocument :=
  fun s => if s = "doc1:\x7b\"a\":1\x7d" then some ⟨"doc1", "\x7b\"a\":1\x7d"⟩ else none

/-- The decoded JSON value of the payload `"{\"a\":1}"`. -/
def payloadVal : Jval := Jval.obj (JFields.cons "a" (Jval.num 1) JFields.nil)

/-- A trivial MAC fixture. -/
def macZero : Nat → String → List Nat := fun _ _ => []

end EdgeService

namespace EdgeService

/-- C4: for every logical credential ID, the blind-index value computed at
store time in `buildEncryptedDoc` equals the blind-index value computed at
query time in `queryVault` — with the keyed MAC collaborator modelled as a
function (hence deterministic), both runs apply the same MAC under the same
key handle and the same base64-URL encoding, and the index names agree as
well. -/
theorem claim_C4_blind_index_store_equals_query
    (computeMAC : Nat → String → List Nat) (kh : Nat) (vcIDIndexNameEncoded : String)
    (E : StructuredDocument → String) (structuredDoc : StructuredDocument) (vcID : String) :
    (buildEncryptedDoc E computeMAC kh vcIDIndexNameEncoded structuredDoc vcID).indexValue =
      (queryVault computeMAC kh vcIDIndexNameEncoded vcID).value ∧
    (buildEncryptedDoc E computeMAC kh vcIDIndexNameEncoded structuredDoc vcID).indexName =
      (queryVault computeMAC kh vcIDIndexNameEncoded vcID).name :=
  ⟨rfl, rfl⟩

/-- C6: issuance replaces the credential's issuer with the profile's DID
exactly when the profile's overwrite flag is set or the credential supplied
no issuer; with the flag set the issuer ID always becomes the profile DID,
and a credential with a non-empty issuer under an unset flag is left
unchanged. -/
theorem claim_C6_updateIssuer_overwrite (c : Credential) (p : DataProfile) :
    (p.overwriteIssuer = true → (updateIssuer c p).issuer.id = p.did) ∧
    (c.issuer.id = "" → (updateIssuer c p).issuer.id = p.did) ∧
    (p.overwriteIssuer = false → c.issuer.id ≠ "" → updateIssuer c p = c) := by
  refine ⟨fun h => ?_, fun h => ?_, fun h1 h2 => ?_⟩
  · simp [updateIssuer, h]
  · simp [updateIssuer, h]
  · simp [updateIssuer, h1, h2]

/-- Witness for C6 at concrete inputs: an overwriting profile rewrites the
issuer, an empty issuer is rewritten even without the flag, and a non-empty
issuer without the flag is untouched. -/
theorem claim_C6_updateIssuer_overwrite_witness :
    (updateIssuer sampleCredential sampleProfile).issuer.id = "did:trustbloc:abc" ∧
    (updateIssuer blankIssuerCredential profileNoOverwrite).issuer.id = "did:trustbloc:abc" ∧
    updateIssuer sampleCredential profileNoOverwrite = sampleCredential :=
  ⟨(claim_C6_updateIssuer_overwrite sampleCredential sampleProfile).1 rfl,
   (claim_C6_updateIssuer_overwrite blankIssuerCredential profileNoOverwrite).2.1 rfl,
   (claim_C6_updateIssuer_overwrite sampleCredential profileNoOverwrite).2.2 rfl
     (by decide)⟩

/-- C9: with the shard capacity fixed at `cslSize = 50`, allocating 51
consecutive status slots yields slots 1 through 50 at indexes 0 through 49
of the first shard and the 51st slot at index 0 of the second shard,
spanning exactly two distinct shard identifiers. -/
theorem claim_C9_fifty_one_allocations :
    allocateSlots cslSize 51 ⟨0, 0⟩ =
      (List.range 50).map (fun i => (0, i)) ++ [(1, 0)] ∧
    ((allocateSlots cslSize 51 ⟨0, 0⟩).map Prod.fst).dedup = [0, 1] := by
  constructor
  · decide
  · decide

/-- C10: the unchecked type assertion
`vc.Issuer.CustomFields["name"].(string)` in
`updateCredentialStatusHandler` evaluates without panicking exactly for
credentials whose issuer carries a string-valued `"name"` custom field;
`updateIssuer` establishes that postcondition whenever it rewrites the
issuer, but an arbitrary submitted credential need not satisfy it. -/
theorem claim_C10_status_handler_name_assertion :
    (∀ c : Credential, (∃ s, issuerNameAssertion c = some s) ↔
      (∃ s, c.issuer.customFields.lookup "name" = some (Jval.str s))) ∧
    (∀ (c : Credential) (p : DataProfile),
      p.overwriteIssuer = true ∨ c.issuer.id = "" →
      issuerNameAssertion (updateIssuer c p) = some p.name) ∧
    (∃ c : Credential, issuerNameAssertion c = none) := by
  refine ⟨fun c => ⟨fun ⟨s, hs⟩ => ?_, fun ⟨s, hs⟩ => ?_⟩, fun c p h => ?_, ?_⟩
  · unfold issuerNameAssertion at hs
    rcases hl : c.issuer.customFields.lookup "name" with _ | v
    · rw [hl] at hs; exact absurd hs (by simp)
    · rw [hl] at hs
      cases v with
      | str s' => exact ⟨s', rfl⟩
      | null => exact absurd hs (by simp)
      | bool b => exact absurd hs (by simp)
      | num n => exact absurd hs (by simp)
      | arr xs => exact absurd hs (by simp)
      | obj fs => exact absurd hs (by simp)
  · exact ⟨s, by unfold issuerNameAssertion; rw [hs]⟩
  · have hb : (p.overwriteIssuer || c.issuer.id == "") = true := by
      rcases h with h | h
      · simp [h]
      · simp [h]
    unfold updateIssuer
    rw [hb]
    simp [issuerNameAssertion, List.lookup]
  · exact ⟨⟨[], [], ⟨"", []⟩, none, Jval.null, []⟩, rfl⟩

/-- Witness for C10 at concrete inputs: after `updateIssuer` under an
overwriting profile the assertion yields the profile name. -/
theorem claim_C10_status_handler_name_assertion_witness :
    issuerNameAssertion (updateIssuer sampleCredential sampleProfile) = some "profileA" :=
  claim_C10_status_handler_name_assertion.2.1 sampleCredential sampleProfile (Or.inl rfl)

end EdgeService

namespace EdgeService

/-- C5: the store flow re-attempts the document write exactly when the
first write failed with the vault-not-found error and the lazy vault
creation succeeded, and then exactly once (never more than two write
attempts); the vault is created exactly when the first write failed with
the vault-not-found error; any other write error is surfaced as-is with a
single write attempt, and an error from the second attempt is surfaced
without further retries. -/
theorem claim_C5_lazy_vault_creation_retry (edv : EdvOutcomes) :
    (countWrites (storeVC edv).1 = 2 ↔
      ∃ e, edv.firstWrite = .error e ∧ containsVaultNotFound e = true ∧
        ∃ l, edv.createVault = .ok l) ∧
    ((StoreAction.createDataVault ∈ (storeVC edv).1) ↔
      ∃ e, edv.firstWrite = .error e ∧ containsVaultNotFound e = true) ∧
    countWrites (storeVC edv).1 ≤ 2 ∧
    (∀ e, edv.firstWrite = .error e → containsVaultNotFound e = false →
      (storeVC edv).1 = [.createDocument] ∧ (storeVC edv).2 = some e) ∧
    (∀ e l e2, edv.firstWrite = .error e → containsVaultNotFound e = true →
      edv.createVault = .ok l → edv.secondWrite = .error e2 →
      (storeVC edv).2 = some e2) := by
  obtain ⟨fw, cv, sw⟩ := edv
  rcases fw with e | l
  · cases hcv : containsVaultNotFound e
    · simp [storeVC, countWrites, hcv, List.filter]
      intro e1 l e2 he hc
      rw [← he, hcv] at hc
      simp at hc
    · rcases cv with ce | cl
      · simp [storeVC, countWrites, hcv, List.filter]
      · rcases sw with se | sl
        · simp [storeVC, countWrites, hcv, List.filter]
        · simp [storeVC, countWrites, hcv, List.filter]
  · simp [storeVC, countWrites, List.filter]

/-- Witness for C5 at concrete outcomes: a vault-not-found first write with
a successful vault creation produces exactly two write attempts, and the
failure of the re-attempted write is what the caller sees. -/
theorem claim_C5_lazy_vault_creation_retry_witness :
    countWrites (storeVC edvRetryOutcomes).1 = 2 ∧
    (storeVC edvRetryOutcomes).2 = some "second write failed" :=
  ⟨(claim_C5_lazy_vault_creation_retry edvRetryOutcomes).1.mpr
      ⟨errVaultNotFoundMsg, rfl, rfl, "vaultLocation", rfl⟩,
   (claim_C5_lazy_vault_creation_retry edvRetryOutcomes).2.2.2.2
      errVaultNotFoundMsg "vaultLocation" "second write failed" rfl rfl rfl rfl⟩

/-- C8: for every JSON fragment actually supplied as compose-variant
options (a supplied fragment is non-empty; an absent field arrives as zero
bytes), `decodeTypedID` tries the single-object shape first — a fragment
that decodes as a single TypedID yields the one-element list — and only on
failure tries the array shape, returning that array; a fragment that fails
both shapes (including one that is not valid JSON) yields an error. -/
theorem claim_C8_two_shape_option_decoding (s : String) (hne : s.length ≠ 0) :
    (∀ v t, parseJson s = some v → unmarshalTypedID v = some t →
      decodeTypedID s = .ok [t]) ∧
    (∀ v ts, parseJson s = some v → unmarshalTypedID v = none →
      unmarshalTypedIDList v = some ts → decodeTypedID s = .ok ts) ∧
    (parseJson s = none → ∃ e, decodeTypedID s = .error e) ∧
    (∀ v, parseJson s = some v → unmarshalTypedID v = none →
      unmarshalTypedIDList v = none → ∃ e, decodeTypedID s = .error e) := by
  refine ⟨?_, ?_, ?_, ?_⟩
  · intro v t hp hm
    simp [decodeTypedID, hne, hp, hm]
  · intro v ts hp hm hl
    simp [decodeTypedID, hne, hp, hm, hl]
  · intro hp
    exact ⟨"unmarshal failure", by simp [decodeTypedID, hne, hp]⟩
  · intro v hp hm hl
    exact ⟨"cannot unmarshal into TypedID", by simp [decodeTypedID, hne, hp, hm, hl]⟩

/-- Witness for C8 at concrete fragments: an object fragment yields a
one-element list, an array fragment yields its elements, and a fragment
that fits neither shape yields an error. -/
theorem claim_C8_two_shape_option_decoding_witness :
    decodeTypedID "\x7b\"id\":\"a\",\"type\":\"T\"\x7d" = .ok [⟨"a", "T"⟩] ∧
    decodeTypedID "[\x7b\"id\":\"a\",\"type\":\"T\"\x7d,\x7b\"id\":\"b\",\"type\":\"U\"\x7d]" =
      .ok [⟨"a", "T"⟩, ⟨"b", "U"⟩] ∧
    ∃ e, decodeTypedID "5" = .error e :=
  ⟨(claim_C8_two_shape_option_decoding "\x7b\"id\":\"a\",\"type\":\"T\"\x7d" (by decide)).1
      (Jval.obj (JFields.cons "id" (Jval.str "a")
        (JFields.cons "type" (Jval.str "T") JFields.nil))) ⟨"a", "T"⟩ rfl rfl,
   (claim_C8_two_shape_option_decoding
        "[\x7b\"id\":\"a\",\"type\":\"T\"\x7d,\x7b\"id\":\"b\",\"type\":\"U\"\x7d]" (by decide)).2.1
      (Jval.arr (JList.cons
        (Jval.obj (JFields.cons "id" (Jval.str "a")
          (JFields.cons "type" (Jval.str "T") JFields.nil)))
        (JList.cons (Jval.obj (JFields.cons "id" (Jval.str "b")
          (JFields.cons "type" (Jval.str "U") JFields.nil))) JList.nil)))
      [⟨"a", "T"⟩, ⟨"b", "U"⟩] rfl rfl rfl,
   (claim_C8_two_shape_option_decoding "5" (by decide)).2.2.2
      (Jval.num 5) rfl rfl rfl⟩

end EdgeService

namespace EdgeService

/-- Helper for C3: every error produced by the fetch loop of the
duplicate-reconciliation path carries status 500. -/
theorem retrieveAllMatchingVCs_error_status
    (readDocument : String → String → Except String EncryptedDocument)
    (D : String → Option StructuredDocument) (profileName : String) :
    ∀ (docURLs : List String) (e : HErr),
      retrieveAllMatchingVCs readDocument D profileName docURLs = .error e →
      e.status = 500 := by
  intro docURLs
  induction docURLs with
  | nil => intro e h; simp [retrieveAllMatchingVCs] at h
  | cons docURL rest ih =>
    intro e h
    unfold retrieveAllMatchingVCs at h
    rcases hr : retrieveVC readDocument D profileName (getDocIDFromURL docURL)
        multipleVCsContextErrText with e' | vcBytes
    · rw [hr] at h
      cases h
      rfl
    · rw [hr] at h
      rcases ht : retrieveAllMatchingVCs readDocument D profileName rest with e' | tl
      · rw [ht] at h
        cases h
        exact ih _ ht
      · rw [ht] at h
        cases h

/-- C7: under a profile with status disabled, both issuance pipelines skip
the status branch entirely — the result is exactly the status-free
pipeline, whatever the status manager would have answered — so the status
field is left unset (unchanged), no status-list context entry is added,
and all other credential fields are those the status-free steps produce. -/
theorem claim_C7_disableStatus_frame (statusContext : String) (p : DataProfile)
    (createStatusID : Except String TypedID) (c : Credential)
    (hd : p.disableVCStatus = true) :
    prepareCredential statusContext p createStatusID c =
      .ok (updateIssuer (updateContext c p) p) ∧
    prepareComposedCredential statusContext p createStatusID c =
      .ok (updateIssuer (updateContext c p) p) ∧
    (∀ c', prepareCredential statusContext p createStatusID c = .ok c' →
      c'.status = c.status ∧ c'.types = c.types ∧ c'.subject = c.subject ∧
      c'.termsOfUse = c.termsOfUse ∧
      (statusContext ∉ c.context → statusContext ≠ jsonWebSignature2020Context →
        statusContext ∉ c'.context)) := by
  have h1 : prepareCredential statusContext p createStatusID c =
      .ok (updateIssuer (updateContext c p) p) := by
    simp [prepareCredential, setCredentialStatus, hd]
  have h2 : prepareComposedCredential statusContext p createStatusID c =
      .ok (updateIssuer (updateContext c p) p) := by
    simp [prepareComposedCredential, setCredentialStatus, hd]
  refine ⟨h1, h2, ?_⟩
  intro c' hc'
  rw [h1] at hc'
  cases hc'
  unfold updateIssuer updateContext
  constructor
  · split <;> split <;> simp
  constructor
  · split <;> split <;> simp
  constructor
  · split <;> split <;> simp
  constructor
  · split <;> split <;> simp
  · intro hmem hneq
    split <;> split <;> simp_all

/-- Witness for C7 at concrete inputs: with status disabled the pipeline
ignores even a failing status manager and touches neither the status field
nor the context beyond the signature-type entry. -/
theorem claim_C7_disableStatus_frame_witness :
    prepareCredential "https://example.org/status-list/v1" profileNoStatus
      (.error "status manager down") sampleCredential =
      .ok (updateIssuer (updateContext sampleCredential profileNoStatus) profileNoStatus) ∧
    ("https://example.org/status-list/v1" ∉
      (updateIssuer (updateContext sampleCredential profileNoStatus) profileNoStatus).context) :=
  ⟨(claim_C7_disableStatus_frame "https://example.org/status-list/v1" profileNoStatus
      (.error "status manager down") sampleCredential rfl).1,
   ((claim_C7_disableStatus_frame "https://example.org/status-list/v1" profileNoStatus
      (.error "status manager down") sampleCredential rfl).2.2
      (updateIssuer (updateContext sampleCredential profileNoStatus) profileNoStatus)
      rfl).2.2.2.2 (by decide) (by decide)⟩

/-- C3: a retrieval whose vault query returned zero matching document
locations fails with the distinguished not-found error (status 400, the
no-VC-found message), while every failure on a non-empty match list
carries status 500 (generic retrieval failure) or 409 (conflict), so
callers can branch on the not-found case. -/
theorem claim_C3_zero_matches_not_found
    (readDocument : String → String → Except String EncryptedDocument)
    (D : String → Option StructuredDocument) (profileName : String) :
    retrieveCredential readDocument D profileName [] =
      .error ⟨400, noVCFoundMsg profileName⟩ ∧
    (∀ (docURLs : List String) (e : HErr), docURLs ≠ [] →
      retrieveCredential readDocument D profileName docURLs = .error e →
      e.status = 500 ∨ e.status = 409) ∧
    (400 : Nat) ≠ 500 ∧ (400 : Nat) ≠ 409 := by
  refine ⟨rfl, ?_, by decide, by decide⟩
  intro docURLs e hne h
  match docURLs with
  | [] => exact absurd rfl hne
  | [docURL] =>
    have h' : (match retrieveVC readDocument D profileName (getDocIDFromURL docURL)
          "retrieving VC" with
        | Except.error e => (Except.error ⟨500, e⟩ : Except HErr String)
        | Except.ok vcBytes => Except.ok vcBytes) = Except.error e := h
    rcases hr : retrieveVC readDocument D profileName (getDocIDFromURL docURL)
        "retrieving VC" with e' | vcBytes
    · rw [hr] at h'
      have h2 : (Except.error ⟨500, e'⟩ : Except HErr String) = Except.error e := h'
      cases h2
      exact Or.inl rfl
    · rw [hr] at h'
      have h2 : (Except.ok vcBytes : Except HErr String) = Except.error e := h'
      cases h2
  | docURL1 :: docURL2 :: rest =>
    have hv : verifyMultipleMatchingVCsAreIdentical readDocument D profileName
        (docURL1 :: docURL2 :: rest) = .error e := h
    unfold verifyMultipleMatchingVCsAreIdentical at hv
    rcases ha : retrieveAllMatchingVCs readDocument D profileName
        (docURL1 :: docURL2 :: rest) with e' | vcs
    · rw [ha] at hv
      have h2 : (Except.error e' : Except HErr String) = Except.error e := hv
      cases h2
      exact Or.inl (retrieveAllMatchingVCs_error_status readDocument D profileName _ _ ha)
    · rw [ha] at hv
      have hv2 : (if (vcs.all fun b => decide (b = vcs.headD "")) = true
          then (Except.ok (vcs.headD "") : Except HErr String)
          else Except.error ⟨409, errMultipleInconsistentVCsFoundForOneIDMsg⟩) =
          Except.error e := hv
      by_cases hb : (vcs.all fun b => decide (b = vcs.headD "")) = true
      · rw [if_pos hb] at hv2
        cases hv2
      · rw [if_neg hb] at hv2
        cases hv2
        exact Or.inr rfl

/-- Witness for C3 at concrete inputs: the empty match list gives the
status-400 not-found error, and a failing read on one match gives a
status-500 error. -/
theorem claim_C3_zero_matches_not_found_witness :
    retrieveCredential readDocumentFail decryptNone "profileA" [] =
      .error ⟨400, noVCFoundMsg "profileA"⟩ ∧
    (readFailErr.status = 500 ∨ readFailErr.status = 409) :=
  ⟨(claim_C3_zero_matches_not_found readDocumentFail decryptNone "profileA").1,
   (claim_C3_zero_matches_not_found readDocumentFail decryptNone "profileA").2.1
      ["docs/d1"] readFailErr (by simp) rfl⟩

end EdgeService

namespace EdgeService

/-- C1: when two or more documents match one blind index and every fetch
succeeds, the reconciliation returns the first payload with no error if
all decrypted payloads are byte-for-byte identical, and returns the
distinguished multiple-inconsistent-VCs error as a 409 conflict — and no
payload — if any two of them differ. -/
theorem claim_C1_duplicate_reconciliation
    (readDocument : String → String → Except String EncryptedDocument)
    (D : String → Option StructuredDocument) (profileName : String)
    (docURLs : List String) (payloads : List String)
    (hlen : 2 ≤ docURLs.length)
    (hall : retrieveAllMatchingVCs readDocument D profileName docURLs = .ok payloads) :
    ((∀ x ∈ payloads, ∀ y ∈ payloads, x = y) →
      retrieveCredential readDocument D profileName docURLs = .ok (payloads.headD "")) ∧
    ((∃ x ∈ payloads, ∃ y ∈ payloads, x ≠ y) →
      retrieveCredential readDocument D profileName docURLs =
        .error ⟨409, errMultipleInconsistentVCsFoundForOneIDMsg⟩) := by
  match docURLs, hall with
  | docURL1 :: docURL2 :: rest, hall =>
    have hcred : retrieveCredential readDocument D profileName
        (docURL1 :: docURL2 :: rest) =
        verifyMultipleMatchingVCsAreIdentical readDocument D profileName
          (docURL1 :: docURL2 :: rest) := rfl
    have hred : verifyMultipleMatchingVCsAreIdentical readDocument D profileName
        (docURL1 :: docURL2 :: rest) =
        (match retrieveAllMatchingVCs readDocument D profileName
            (docURL1 :: docURL2 :: rest) with
         | Except.error e => (Except.error e : Except HErr String)
         | Except.ok retrievedVCs =>
           if (retrievedVCs.all fun b => decide (b = retrievedVCs.headD "")) = true
           then Except.ok (retrievedVCs.headD "")
           else Except.error ⟨409, errMultipleInconsistentVCsFoundForOneIDMsg⟩) := rfl
    constructor
    · intro hxy
      rw [hcred, hred, hall]
      show (if (payloads.all fun b => decide (b = payloads.headD "")) = true
          then (Except.ok (payloads.headD "") : Except HErr String)
          else Except.error ⟨409, errMultipleInconsistentVCsFoundForOneIDMsg⟩) =
          Except.ok (payloads.headD "")
      have hb : (payloads.all fun b => decide (b = payloads.headD "")) = true := by
        rw [List.all_eq_true]
        intro x hx
        rcases hp : payloads with _ | ⟨p, tl⟩
        · rw [hp] at hx; cases hx
        · rw [hp] at hx
          simp only [List.headD_cons]
          exact decide_eq_true (hxy x (hp ▸ hx) p (hp ▸ List.mem_cons_self p tl))
      rw [if_pos hb]
    · rintro ⟨x, hx, y, hy, hne⟩
      rw [hcred, hred, hall]
      show (if (payloads.all fun b => decide (b = payloads.headD "")) = true
          then (Except.ok (payloads.headD "") : Except HErr String)
          else Except.error ⟨409, errMultipleInconsistentVCsFoundForOneIDMsg⟩) =
          Except.error ⟨409, errMultipleInconsistentVCsFoundForOneIDMsg⟩
      have hb : ¬ ((payloads.all fun b => decide (b = payloads.headD "")) = true) := by
        intro h'
        rw [List.all_eq_true] at h'
        have hx' := of_decide_eq_true (h' x hx)
        have hy' := of_decide_eq_true (h' y hy)
        exact hne (hx'.trans hy'.symm)
      rw [if_neg hb]

/-- Witness for C1 at concrete inputs: two matches decrypting to identical
payloads return the first payload, and two matches decrypting to differing
payloads return the conflict error. -/
theorem claim_C1_duplicate_reconciliation_witness :
    retrieveCredential readDocumentTwo decryptTwoSame "profileA"
      ["docs/d1", "docs/d2"] = .ok "\x7b\"k\":1\x7d" ∧
    retrieveCredential readDocumentTwo decryptTwoDiff "profileA"
      ["docs/d1", "docs/d2"] =
      .error ⟨409, errMultipleInconsistentVCsFoundForOneIDMsg⟩ :=
  ⟨(claim_C1_duplicate_reconciliation readDocumentTwo decryptTwoSame "profileA"
      ["docs/d1", "docs/d2"] ["\x7b\"k\":1\x7d", "\x7b\"k\":1\x7d"] (by decide) rfl).1
      (by intro x hx y hy; fin_cases hx <;> fin_cases hy <;> rfl),
   (claim_C1_duplicate_reconciliation readDocumentTwo decryptTwoDiff "profileA"
      ["docs/d1", "docs/d2"] ["\x7b\"k\":1\x7d", "[]"] (by decide) rfl).2
      ⟨"\x7b\"k\":1\x7d", by simp, "[]", by simp, by decide⟩⟩

/-- C2 (amended): storing a credential payload and retrieving it returns
the payload as re-marshalled by Go's `encoding/json` — the parsed JSON
value in compact form with object keys sorted — because retrieval
unmarshals the verbatim-stored bytes into a generic map and marshals them
again; the retrieved bytes equal the stored bytes exactly when the payload
was already in that canonical form. -/
theorem claim_C2_store_retrieve_remarshal
    (E : StructuredDocument → String) (D : String → Option StructuredDocument)
    (computeMAC : Nat → String → List Nat) (kh : Nat) (indexName : String)
    (edvDocID payload vcID profileName : String) (v : Jval)
    (hED : D (E (buildStructuredDoc edvDocID payload)) =
      some (buildStructuredDoc edvDocID payload))
    (hp : parseJson payload = some v) :
    storeThenRetrieveVC E D computeMAC kh indexName edvDocID payload vcID profileName =
      .ok (goRemarshal v) ∧
    (storeThenRetrieveVC E D computeMAC kh indexName edvDocID payload vcID profileName =
      .ok payload ↔ goRemarshal v = payload) := by
  have h1 : storeThenRetrieveVC E D computeMAC kh indexName edvDocID payload vcID
      profileName =
      (match D (E (buildStructuredDoc edvDocID payload)) with
       | none =>
         (Except.error ("decrypting document failed while " ++ "retrieving VC") :
           Except String String)
       | some decryptedDoc =>
         match parseJson decryptedDoc.message with
         | none =>
           Except.error ("decrypted structured document unmarshalling failed while " ++
             "retrieving VC")
         | some w => Except.ok (goRemarshal w)) := rfl
  have hmain : storeThenRetrieveVC E D computeMAC kh indexName edvDocID payload vcID
      profileName = .ok (goRemarshal v) := by
    rw [h1, hED]
    show (match parseJson payload with
          | none =>
            (Except.error ("decrypted structured document unmarshalling failed while " ++
              "retrieving VC") : Except String String)
          | some w => Except.ok (goRemarshal w)) = Except.ok (goRemarshal v)
    rw [hp]
  refine ⟨hmain, ?_, ?_⟩
  · intro h
    rw [hmain] at h
    exact Except.ok.inj h
  · intro h
    rw [hmain, h]

/-- Counterexample for C2 as originally stated: the non-canonical payload
`"{\"a\": 1}"` (note the space) is stored verbatim but retrieved as
`"{\"a\":1}"` — the round trip is not byte-identical for every JSON
credential payload. -/
theorem claim_C2_counterexample :
    storeThenRetrieveVC jweEnc jweDecNonCanonical macZero 0 "idx" "doc1"
      "\x7b\"a\": 1\x7d" "vc-1" "profileA" = .ok "\x7b\"a\":1\x7d" ∧
    ("\x7b\"a\":1\x7d" : String) ≠ "\x7b\"a\": 1\x7d" :=
  ⟨rfl, by decide⟩

/-- Witness for C2 (amended) at concrete inputs: a payload already in
canonical marshalled form round-trips byte-identically. -/
theorem claim_C2_store_retrieve_remarshal_witness :
    storeThenRetrieveVC jweEnc jweDecCanonical macZero 0 "idx" "doc1"
      "\x7b\"a\":1\x7d" "vc-1" "profileA" = .ok "\x7b\"a\":1\x7d" :=
  (claim_C2_store_retrieve_remarshal jweEnc jweDecCanonical macZero 0 "idx" "doc1"
    "\x7b\"a\":1\x7d" "vc-1" "profileA" payloadVal rfl rfl).2.mpr rfl

end EdgeService
